import Mathlib

/-!
Verification of `src/aggregator/scrapers.py` (news-source scrapers).

The Python module is embedded shallowly:

* `datetime` values become the record `PyDateTime` (date + time fields plus a
  timezone-awareness flag; `datetime.strptime` yields naive values, Django's
  `timezone.now()` yields the ambient current time).
* Effectful calls (`timezone.now()`, `random.randint`, `random.uniform`,
  network responses) are passed in as explicit environment parameters.
* `requests` transport outcomes are `Option` values: `none` models a raised
  `requests.exceptions.RequestException`, `some r` a successful response.
* A BeautifulSoup document is modelled as the list of article containers that
  `find_all` locates; each container exposes the sub-elements the extractor
  `find`s as `Option Elem` (`none` = the element is absent).
-/

/-- Model of a Python `datetime` value: calendar date, time of day, and
whether the value carries timezone information (`tzinfo is not None`). -/
structure PyDateTime where
  year : Nat
  month : Nat
  day : Nat
  hour : Nat
  minute : Nat
  second : Nat
  tzAware : Bool
deriving DecidableEq, Repr

/-- Numeric value of an ASCII digit character. -/
def digitVal (c : Char) : Nat := c.toNat - 48

/-- CPython `_strptime` directive `%Y`: exactly four digits (the regex
`\d\d\d\d`; the model covers ASCII digits). -/
def yearTok : List Char → Option (Nat × List Char)
  | a :: b :: c :: d :: rest =>
    if a.isDigit ∧ b.isDigit ∧ c.isDigit ∧ d.isDigit then
      some (1000 * digitVal a + 100 * digitVal b + 10 * digitVal c + digitVal d, rest)
    else
      none
  | _ => none

/-- CPython `_strptime` directive `%m`: the ordered alternation
`1[0-2]|0[1-9]|[1-9]` (month 1–12, one or two digits). -/
def monthTok : List Char → Option (Nat × List Char)
  | [] => none
  | c :: rest =>
    if c = '1' then
      match rest with
      | c2 :: rest2 =>
        if '0' ≤ c2 ∧ c2 ≤ '2' then some (10 + digitVal c2, rest2) else some (1, rest)
      | [] => some (1, [])
    else if c = '0' then
      match rest with
      | c2 :: rest2 =>
        if '1' ≤ c2 ∧ c2 ≤ '9' then some (digitVal c2, rest2) else none
      | [] => none
    else if '2' ≤ c ∧ c ≤ '9' then
      some (digitVal c, rest)
    else
      none

/-- CPython `_strptime` directive `%d`: the ordered alternation
`3[01]|[12]\d|0[1-9]|[1-9]` (day 1–31, one or two digits). -/
def dayTok : List Char → Option (Nat × List Char)
  | [] => none
  | c :: rest =>
    if c = '3' then
      match rest with
      | c2 :: rest2 =>
        if c2 = '0' ∨ c2 = '1' then some (30 + digitVal c2, rest2) else some (3, rest)
      | [] => some (3, [])
    else if c = '1' ∨ c = '2' then
      match rest with
      | c2 :: rest2 =>
        if c2.isDigit then some (10 * digitVal c + digitVal c2, rest2) else some (digitVal c, rest)
      | [] => some (digitVal c, [])
    else if c = '0' then
      match rest with
      | c2 :: rest2 =>
        if '1' ≤ c2 ∧ c2 ≤ '9' then some (digitVal c2, rest2) else none
      | [] => none
    else if '4' ≤ c ∧ c ≤ '9' then
      some (digitVal c, rest)
    else
      none

/-- A literal separator character of the format string. -/
def litTok (ch : Char) : List Char → Option (List Char)
  | c :: rest => if c = ch then some rest else none
  | [] => none

/-- Gregorian leap-year rule, as used by `datetime`. -/
def isLeapYear (y : Nat) : Bool := y % 4 = 0 ∧ (y % 100 ≠ 0 ∨ y % 400 = 0)

/-- Number of days in a month, as validated by the `datetime` constructor. -/
def daysInMonth (y m : Nat) : Nat :=
  if m = 2 then (if isLeapYear y then 29 else 28)
  else if m = 4 ∨ m = 6 ∨ m = 9 ∨ m = 11 then 30
  else 31

/-- The `datetime(year, month, day)` constructor reached at the end of
`strptime`: validates `MINYEAR ≤ year` and the day against the month (a
`ValueError` — modelled as `none` — is caught by the format loop), and
produces a naive value at midnight. -/
def mkDate (y m d : Nat) : Option PyDateTime :=
  if 1 ≤ y ∧ d ≤ daysInMonth y m then some ⟨y, m, d, 0, 0, 0, false⟩ else none

/-- `datetime.strptime(s, "%Y-%m-%d")`; `none` models the `ValueError` on a
non-matching or out-of-range string (the regex must consume the whole input). -/
def strptimeYMD (s : String) : Option PyDateTime :=
  match yearTok s.toList with
  | none => none
  | some (y, r1) =>
    match litTok '-' r1 with
    | none => none
    | some r2 =>
      match monthTok r2 with
      | none => none
      | some (m, r3) =>
        match litTok '-' r3 with
        | none => none
        | some r4 =>
          match dayTok r4 with
          | none => none
          | some (d, r5) => if r5 = [] then mkDate y m d else none

/-- `datetime.strptime(s, "%d/%m/%Y")`. -/
def strptimeDMY (s : String) : Option PyDateTime :=
  match dayTok s.toList with
  | none => none
  | some (d, r1) =>
    match litTok '/' r1 with
    | none => none
    | some r2 =>
      match monthTok r2 with
      | none => none
      | some (m, r3) =>
        match litTok '/' r3 with
        | none => none
        | some r4 =>
          match yearTok r4 with
          | none => none
          | some (y, r5) => if r5 = [] then mkDate y m d else none

/-- `datetime.strptime(s, "%m/%d/%Y")`. -/
def strptimeMDY (s : String) : Option PyDateTime :=
  match monthTok s.toList with
  | none => none
  | some (m, r1) =>
    match litTok '/' r1 with
    | none => none
    | some r2 =>
      match dayTok r2 with
      | none => none
      | some (d, r3) =>
        match litTok '/' r3 with
        | none => none
        | some r4 =>
          match yearTok r4 with
          | none => none
          | some (y, r5) => if r5 = [] then mkDate y m d else none

/-- `BaseScraper._parse_date`: try `"%Y-%m-%d"`, `"%d/%m/%Y"`, `"%m/%d/%Y"`
in that order; each `ValueError` falls through to the next format, and when
none matches the function returns `timezone.now()` — passed in here as the
environment parameter `now`. -/
def parse_date (now : PyDateTime) (date_str : String) : PyDateTime :=
  match strptimeYMD date_str with
  | some dt => dt
  | none =>
    match strptimeDMY date_str with
    | some dt => dt
    | none =>
      match strptimeMDY date_str with
      | some dt => dt
      | none => now

/-! ## `BaseScraper._make_request`: manual retry loop with exponential backoff -/

/-- `max_retries = 3` in `_make_request`. -/
def max_retries : Nat := 3

/-- `base_delay = 1` (seconds) in `_make_request`. -/
def base_delay : ℚ := 1

/-- The backoff delay with the jitter term ignored: `base_delay * (2 ** attempt)`. -/
def ideal_delay (attempt : Nat) : ℚ := base_delay * 2 ^ attempt

/-- The `for attempt in range(max_retries)` loop of `_make_request`.
`attemptOutcome a` is the outcome of the `session.get` + `raise_for_status`
pair on attempt `a` (`none` = a `requests.exceptions.RequestException` was
raised), `jitter a` is the `random.uniform(0, 1)` draw of attempt `a`.
Returns the function result, the number of attempts performed, and the list
of delays slept between consecutive attempts. The fuel argument counts the
remaining loop iterations. -/
def make_request_loop {α : Type} (attemptOutcome : Nat → Option α) (jitter : Nat → ℚ) :
    Nat → Nat → Option α × Nat × List ℚ
  | _, 0 => (none, 0, [])
  | attempt, fuel + 1 =>
    match attemptOutcome attempt with
    | some r => (some r, 1, [])
    | none =>
      if attempt < max_retries - 1 then
        let rest := make_request_loop attemptOutcome jitter (attempt + 1) fuel
        (rest.1, rest.2.1 + 1, (base_delay * 2 ^ attempt + jitter attempt) :: rest.2.2)
      else
        (none, 1, [])

/-- `BaseScraper._make_request`: run the retry loop from attempt 0. -/
def make_request {α : Type} (attemptOutcome : Nat → Option α) (jitter : Nat → ℚ) :
    Option α × Nat × List ℚ :=
  make_request_loop attemptOutcome jitter 0 max_retries

/-! ## Article records and per-source extraction -/

/-- A sub-element located by `find` inside an article container: its
stripped text (`get_text(strip=True)`) and, for anchors, the optional `href`
attribute (`get('href', '')` substitutes `""` when absent). -/
structure Elem where
  text : String
  href : Option String
deriving DecidableEq, Repr

/-- The article record dict produced by the extractors. -/
structure Article where
  title : String
  summary : String
  url : String
  source : String
  published_at : PyDateTime
deriving DecidableEq, Repr

/-- An InShorts `news-card` container: the three sub-elements
`_extract_article_data` looks up (`none` = `find` returned `None`). -/
structure InCard where
  title_elem : Option Elem
  summary_elem : Option Elem
  url_elem : Option Elem
deriving DecidableEq, Repr

/-- A Hindustan Times `cartHolder` container: the three sub-elements
`_extract_article_data` looks up. -/
structure HTCard where
  title_elem : Option Elem
  summary_elem : Option Elem
  link_elem : Option Elem
deriving DecidableEq, Repr

/-- `InShortsScaper._extract_article_data`: all three of title, summary and
url elements must be present (`if not all([...]): return None`); the
record's `published_at` is `timezone.now() - timedelta(hours=random.randint(1, 24))`,
supplied by the environment as `pub card`. -/
def InShortsScaper.extract_article_data (pub : InCard → PyDateTime) (card : InCard) :
    Option Article :=
  match card.title_elem, card.summary_elem, card.url_elem with
  | some t, some s, some u =>
    some { title := t.text, summary := s.text, url := u.href.getD "",
           source := "inshorts", published_at := pub card }
  | _, _, _ => none

/-- `HindustanTimesScaper._extract_article_data`: only title and link
elements are required; a missing summary element falls back to the title's
text (`summary_elem.get_text(strip=True) if summary_elem else
title_elem.get_text(strip=True)`). -/
def HindustanTimesScaper.extract_article_data (pub : HTCard → PyDateTime) (element : HTCard) :
    Option Article :=
  match element.title_elem, element.link_elem with
  | some t, some l =>
    some { title := t.text,
           summary := match element.summary_elem with
                      | some s => s.text
                      | none => t.text,
           url := l.href.getD "",
           source := "hindustan_times", published_at := pub element }
  | _, _ => none

/-- Outcome of one Python call: a returned value, or a raised exception. -/
inductive PyOutcome (α : Type) where
  | ok : α → PyOutcome α
  | exn : String → PyOutcome α

/-- The per-container loop shared by both `scrape_articles` bodies:
`try: data = extract(card); if data: append(data); except Exception: continue`.
An exception from the extraction call is caught and the loop moves on. -/
def scrape_loop {κ : Type} (extract : κ → PyOutcome (Option Article)) :
    List κ → List Article
  | [] => []
  | c :: cs =>
    match extract c with
    | .ok (some a) => a :: scrape_loop extract cs
    | .ok none => scrape_loop extract cs
    | .exn _ => scrape_loop extract cs

/-- `InShortsScaper.scrape_articles`: `response` is the `_make_request`
result, already parsed into the list of `news-card` containers that
`find_all` locates (`none` = no response, return `[]`); the loop runs over
`article_cards[:20]`. -/
def InShortsScaper.scrape_articles (pub : InCard → PyDateTime)
    (response : Option (List InCard)) : List Article :=
  match response with
  | none => []
  | some article_cards =>
    scrape_loop (fun card => .ok (InShortsScaper.extract_article_data pub card))
      (article_cards.take 20)

/-- `HindustanTimesScaper.scrape_articles`: same shape over `cartHolder`
containers, `article_elements[:20]`. -/
def HindustanTimesScaper.scrape_articles (pub : HTCard → PyDateTime)
    (response : Option (List HTCard)) : List Article :=
  match response with
  | none => []
  | some article_elements =>
    scrape_loop (fun element => .ok (HindustanTimesScaper.extract_article_data pub element))
      (article_elements.take 20)

/-! ## Mock scrapers, registry and dispatch -/

/-- `MockInShortsScaper.scrape_articles`: ten synthetic records built from
f-strings over `i in range(10)`; `pub i` is the environment's value of
`timezone.now() - timedelta(hours=random.randint(1, 48))` at iteration `i`. -/
def MockInShortsScaper.scrape_articles (pub : Nat → PyDateTime) : List Article :=
  (List.range 10).map (fun i =>
    { title := "InShorts Breaking News " ++ toString (i + 1) ++
        ": Important Development in Technology",
      summary := "This is a mock summary for InShorts article " ++ toString (i + 1) ++
        ". It contains important information about recent developments in the technology sector.",
      url := "https://inshorts.com/news/article-" ++ toString (i + 1),
      source := "inshorts",
      published_at := pub i })

/-- `MockHindustanTimesScaper.scrape_articles`: ten synthetic records. -/
def MockHindustanTimesScaper.scrape_articles (pub : Nat → PyDateTime) : List Article :=
  (List.range 10).map (fun i =>
    { title := "HT News Update " ++ toString (i + 1) ++ ": Major Political Development",
      summary := "This is a mock summary for Hindustan Times article " ++ toString (i + 1) ++
        ". It covers significant political developments and their implications.",
      url := "https://hindustantimes.com/news/article-" ++ toString (i + 1),
      source := "hindustan_times",
      published_at := pub i })

/-- `scrape_inshorts`: dispatches to the mock InShorts scraper. -/
def scrape_inshorts (pub : Nat → PyDateTime) : List Article :=
  MockInShortsScaper.scrape_articles pub

/-- `scrape_ht`: dispatches to the mock Hindustan Times scraper. -/
def scrape_ht (pub : Nat → PyDateTime) : List Article :=
  MockHindustanTimesScaper.scrape_articles pub

/-- The `SCRAPERS` registry dict, as its association list of entries. -/
def SCRAPERS : List (String × ((Nat → PyDateTime) → List Article)) :=
  [("inshorts", scrape_inshorts), ("hindustan_times", scrape_ht)]

/-- `get_scraper_function`: `SCRAPERS.get(source)` — `none` when the key is
absent. -/
def get_scraper_function (source : String) : Option ((Nat → PyDateTime) → List Article) :=
  SCRAPERS.lookup source

/-! ## Helper lemmas -/

/-- An arbitrary fixed timestamp used to instantiate environment parameters. -/
def pub0 : PyDateTime := ⟨2024, 1, 1, 0, 0, 0, true⟩

lemma scrape_loop_ok_eq_filterMap {κ : Type} (f : κ → Option Article) (l : List κ) :
    scrape_loop (fun c => PyOutcome.ok (f c)) l = l.filterMap f := by
  induction l with
  | nil => rfl
  | cons c cs ih => cases h : f c <;> simp [scrape_loop, List.filterMap_cons, h, ih]

lemma mkDate_fields (y m d : Nat) (dt : PyDateTime) (h : mkDate y m d = some dt) :
    dt.hour = 0 ∧ dt.minute = 0 ∧ dt.second = 0 ∧ dt.tzAware = false := by
  unfold mkDate at h
  split at h
  · injection h with h2
    subst h2
    exact ⟨rfl, rfl, rfl, rfl⟩
  · exact Option.noConfusion h

lemma strptimeYMD_midnight (s : String) (dt : PyDateTime) (h : strptimeYMD s = some dt) :
    dt.hour = 0 ∧ dt.minute = 0 ∧ dt.second = 0 ∧ dt.tzAware = false := by
  unfold strptimeYMD at h
  repeat' split at h
  all_goals first
    | exact Option.noConfusion h
    | exact mkDate_fields _ _ _ _ h

lemma strptimeDMY_midnight (s : String) (dt : PyDateTime) (h : strptimeDMY s = some dt) :
    dt.hour = 0 ∧ dt.minute = 0 ∧ dt.second = 0 ∧ dt.tzAware = false := by
  unfold strptimeDMY at h
  repeat' split at h
  all_goals first
    | exact Option.noConfusion h
    | exact mkDate_fields _ _ _ _ h

lemma strptimeMDY_midnight (s : String) (dt : PyDateTime) (h : strptimeMDY s = some dt) :
    dt.hour = 0 ∧ dt.minute = 0 ∧ dt.second = 0 ∧ dt.tzAware = false := by
  unfold strptimeMDY at h
  repeat' split at h
  all_goals first
    | exact Option.noConfusion h
    | exact mkDate_fields _ _ _ _ h

lemma InShorts_extract_source (pub : InCard → PyDateTime) (c : InCard) (a : Article)
    (h : InShortsScaper.extract_article_data pub c = some a) : a.source = "inshorts" := by
  rcases c with ⟨t, s, u⟩
  cases t <;> cases s <;> cases u <;>
    simp [InShortsScaper.extract_article_data] at h
  rw [← h]

lemma HT_extract_source (pub : HTCard → PyDateTime) (c : HTCard) (a : Article)
    (h : HindustanTimesScaper.extract_article_data pub c = some a) :
    a.source = "hindustan_times" := by
  rcases c with ⟨t, s, l⟩
  cases t <;> cases l <;>
    simp [HindustanTimesScaper.extract_article_data] at h
  rw [← h]

/-! ## Claim theorems -/

/-- C1: when every attempt raises a transport failure, `_make_request`
performs exactly 3 attempts, then returns `None` (instead of raising), and
the two sleep delays it performed are `base * 2^attempt + jitter` for
attempts 0 and 1, where the jitter-free part `ideal_delay` is strictly
increasing attempt-over-attempt. -/
theorem make_request_all_attempts_fail {α : Type} (attemptOutcome : Nat → Option α)
    (jitter : Nat → ℚ) (hfail : ∀ a, attemptOutcome a = none) :
    (make_request attemptOutcome jitter).1 = none ∧
    (make_request attemptOutcome jitter).2.1 = 3 ∧
    (make_request attemptOutcome jitter).2.2 =
      [ideal_delay 0 + jitter 0, ideal_delay 1 + jitter 1] ∧
    (∀ a, ideal_delay a < ideal_delay (a + 1)) := by
  have h0 := hfail 0
  have h1 := hfail 1
  have h2 := hfail 2
  have hcore : make_request attemptOutcome jitter =
      (none, 3, [ideal_delay 0 + jitter 0, ideal_delay 1 + jitter 1]) := by
    simp [make_request, make_request_loop, h0, h1, h2, max_retries, ideal_delay, base_delay]
  refine ⟨by rw [hcore], by rw [hcore], by rw [hcore], ?_⟩
  intro a
  have hp : (0 : ℚ) < 2 ^ a := by positivity
  simp only [ideal_delay, base_delay, one_mul, pow_succ]
  linarith

/-- Witness for C1: with every attempt failing and zero jitter,
`_make_request` reports 3 attempts. -/
theorem make_request_all_attempts_fail_witness :
    (make_request (fun _ => (none : Option Unit)) (fun _ => (0 : ℚ))).2.1 = 3 :=
  (make_request_all_attempts_fail (fun _ => (none : Option Unit)) (fun _ => (0 : ℚ))
    (fun _ => rfl)).2.1

/-- A news-card whose headline element is present but has empty stripped text. -/
def emptyTitleCard : InCard :=
  ⟨some ⟨"", none⟩, some ⟨"some summary", none⟩, some ⟨"", some "https://inshorts.com/x"⟩⟩

/-- Counterexample to C2: a container whose headline element exists but has
empty stripped text passes the `all([...])` presence check, so the scrape
returns a record whose `title` is the empty string. -/
theorem scrape_record_empty_title :
    (InShortsScaper.scrape_articles (fun _ => pub0) (some [emptyTitleCard])).map Article.title
      = [""] := rfl

/-- C2 (amended): every record returned by `scrape_articles` carries the
scraper's non-empty source name and arises from a container among the first
20 whose required elements are all present; containers missing a required
element are omitted from the collection (extraction yields no record).
The title is drawn from a present title element but may be the empty string
when that element's stripped text is empty. -/
theorem scrape_records_source_invariant (pubI : InCard → PyDateTime)
    (pubH : HTCard → PyDateTime) (docI : List InCard) (docH : List HTCard) :
    (∀ a ∈ InShortsScaper.scrape_articles pubI (some docI),
       a.source = "inshorts" ∧ a.source ≠ "" ∧
       ∃ c ∈ docI.take 20, InShortsScaper.extract_article_data pubI c = some a) ∧
    (∀ a ∈ HindustanTimesScaper.scrape_articles pubH (some docH),
       a.source = "hindustan_times" ∧ a.source ≠ "" ∧
       ∃ c ∈ docH.take 20, HindustanTimesScaper.extract_article_data pubH c = some a) ∧
    (∀ c : InCard, c.title_elem = none ∨ c.summary_elem = none ∨ c.url_elem = none →
       InShortsScaper.extract_article_data pubI c = none) ∧
    (∀ c : HTCard, c.title_elem = none ∨ c.link_elem = none →
       HindustanTimesScaper.extract_article_data pubH c = none) := by
  refine ⟨?_, ?_, ?_, ?_⟩
  · intro a ha
    rw [InShortsScaper.scrape_articles, scrape_loop_ok_eq_filterMap] at ha
    rcases List.mem_filterMap.mp ha with ⟨c, hc, hex⟩
    have hsrc := InShorts_extract_source pubI c a hex
    exact ⟨hsrc, by rw [hsrc]; decide, c, hc, hex⟩
  · intro a ha
    rw [HindustanTimesScaper.scrape_articles, scrape_loop_ok_eq_filterMap] at ha
    rcases List.mem_filterMap.mp ha with ⟨c, hc, hex⟩
    have hsrc := HT_extract_source pubH c a hex
    exact ⟨hsrc, by rw [hsrc]; decide, c, hc, hex⟩
  · intro c hc
    rcases c with ⟨t, s, u⟩
    rcases hc with h | h | h
    · subst h; cases s <;> cases u <;> rfl
    · subst h; cases t <;> cases u <;> rfl
    · subst h; cases t <;> cases s <;> rfl
  · intro c hc
    rcases c with ⟨t, s, l⟩
    rcases hc with h | h
    · subst h; cases l <;> rfl
    · subst h; cases t <;> rfl

/-- Witness for C2 (amended): a concrete record returned for a fully
populated container has source `"inshorts"`. -/
theorem scrape_records_source_invariant_witness :
    ({ title := "T", summary := "S", url := "u", source := "inshorts",
       published_at := pub0 } : Article).source = "inshorts" :=
  ((scrape_records_source_invariant (fun _ => pub0) (fun _ => pub0)
      [⟨some ⟨"T", none⟩, some ⟨"S", none⟩, some ⟨"x", some "u"⟩⟩] []).1
    _ (by decide)).1

/-- C3: `_parse_date` tries `%Y-%m-%d`, then `%d/%m/%Y`, then `%m/%d/%Y`,
returning the first format's result; the ambiguous `"01/02/2020"` is read by
the earlier `%d/%m/%Y` format (1 February 2020) even though `%m/%d/%Y` would
also match; when no format matches it returns the current time, so it always
produces a timestamp and never raises. -/
theorem parse_date_priority (now : PyDateTime) (s : String) :
    (∀ dt, strptimeYMD s = some dt → parse_date now s = dt) ∧
    (strptimeYMD s = none → ∀ dt, strptimeDMY s = some dt → parse_date now s = dt) ∧
    (strptimeYMD s = none → strptimeDMY s = none → ∀ dt, strptimeMDY s = some dt →
       parse_date now s = dt) ∧
    (strptimeYMD s = none → strptimeDMY s = none → strptimeMDY s = none →
       parse_date now s = now) ∧
    parse_date now "01/02/2020" = ⟨2020, 2, 1, 0, 0, 0, false⟩ ∧
    strptimeMDY "01/02/2020" = some ⟨2020, 1, 2, 0, 0, 0, false⟩ := by
  refine ⟨?_, ?_, ?_, ?_, rfl, rfl⟩ <;> intros <;> simp [parse_date, *]

/-- Witness for C3: the first format wins on a concrete ISO date. -/
theorem parse_date_priority_witness :
    parse_date pub0 "2024-02-29" = ⟨2024, 2, 29, 0, 0, 0, false⟩ :=
  (parse_date_priority pub0 "2024-02-29").1 _ rfl

/-- C4: on a container with title and link present but no summary element,
the Hindustan Times extractor yields a record whose summary equals its title,
while the InShorts extractor (which requires the summary element) yields no
record. -/
theorem summary_fallback (t l : Elem) (pubH : HTCard → PyDateTime)
    (pubI : InCard → PyDateTime) :
    (∃ a, HindustanTimesScaper.extract_article_data pubH ⟨some t, none, some l⟩ = some a ∧
       a.summary = a.title ∧ a.title = t.text) ∧
    InShortsScaper.extract_article_data pubI ⟨some t, none, some l⟩ = none :=
  ⟨⟨_, rfl, rfl, rfl⟩, rfl⟩

/-- C5: each scrape pass examines exactly the first 20 containers in
document order (all of them when fewer than 20) and returns the successful
extractions in that same order — the result is the order-preserving
`filterMap` of extraction over `containers[:20]`. -/
theorem scrape_articles_first20_in_order (pubI : InCard → PyDateTime)
    (pubH : HTCard → PyDateTime) (docI : List InCard) (docH : List HTCard) :
    InShortsScaper.scrape_articles pubI (some docI) =
      (docI.take 20).filterMap (InShortsScaper.extract_article_data pubI) ∧
    HindustanTimesScaper.scrape_articles pubH (some docH) =
      (docH.take 20).filterMap (HindustanTimesScaper.extract_article_data pubH) :=
  ⟨scrape_loop_ok_eq_filterMap _ _, scrape_loop_ok_eq_filterMap _ _⟩

/-- C6: `get_scraper_function` resolves any identifier outside the static
registry to `none` (never a default function), while the two registered
identifiers resolve to their registered fetch functions. -/
theorem get_scraper_function_resolve (s : String)
    (h1 : s ≠ "inshorts") (h2 : s ≠ "hindustan_times") :
    get_scraper_function s = none ∧
    get_scraper_function "inshorts" = some scrape_inshorts ∧
    get_scraper_function "hindustan_times" = some scrape_ht := by
  refine ⟨?_, rfl, rfl⟩
  have e1 : (s == "inshorts") = false := beq_eq_false_iff_ne.mpr h1
  have e2 : (s == "hindustan_times") = false := beq_eq_false_iff_ne.mpr h2
  simp [get_scraper_function, SCRAPERS, List.lookup, e1, e2]

/-- Witness for C6: the unregistered identifier `"unknown_source"` resolves
to `none`. -/
theorem get_scraper_function_resolve_witness :
    get_scraper_function "unknown_source" = none :=
  (get_scraper_function_resolve "unknown_source" (by decide) (by decide)).1

/-- C7: an exception raised while extracting one container is absorbed by
the loop's `except` clause: the scrape result over any surrounding
containers is exactly the result with the offending container removed, so
records from the other containers are unaffected and nothing propagates. -/
theorem scrape_loop_exception_skipped {κ : Type} (extract : κ → PyOutcome (Option Article))
    (l1 l2 : List κ) (c : κ) (e : String) (h : extract c = PyOutcome.exn e) :
    scrape_loop extract (l1 ++ c :: l2) = scrape_loop extract (l1 ++ l2) := by
  induction l1 with
  | nil => simp [scrape_loop, h]
  | cons d ds ih =>
    simp only [List.cons_append]
    cases hd : extract d <;> simp [scrape_loop, hd, ih]

/-- Witness for C7: a container whose extraction raises contributes nothing. -/
theorem scrape_loop_exception_skipped_witness :
    scrape_loop (fun _ => (PyOutcome.exn "boom" : PyOutcome (Option Article))) [0] =
      scrape_loop (fun _ => (PyOutcome.exn "boom" : PyOutcome (Option Article)))
        ([] : List Nat) :=
  scrape_loop_exception_skipped (fun _ => PyOutcome.exn "boom") [] [] 0 "boom" rfl

/-- C8: the mock-backed `scrape_inshorts` returns exactly 10 records whose
urls are `https://inshorts.com/news/article-<i>` for `i = 1..10` in order,
and the `i`-th record's title contains the decimal index `i`. -/
theorem scrape_inshorts_mock_shape (pub : Nat → PyDateTime) :
    (scrape_inshorts pub).length = 10 ∧
    (scrape_inshorts pub).map Article.url =
      ["https://inshorts.com/news/article-1", "https://inshorts.com/news/article-2",
       "https://inshorts.com/news/article-3", "https://inshorts.com/news/article-4",
       "https://inshorts.com/news/article-5", "https://inshorts.com/news/article-6",
       "https://inshorts.com/news/article-7", "https://inshorts.com/news/article-8",
       "https://inshorts.com/news/article-9", "https://inshorts.com/news/article-10"] ∧
    ∀ i, i < 10 →
      (toString (i + 1)).toList <:+:
        (((scrape_inshorts pub).map Article.title).getD i "").toList := by
  refine ⟨rfl, rfl, ?_⟩
  have htitles : (scrape_inshorts pub).map Article.title =
      ["InShorts Breaking News 1: Important Development in Technology",
       "InShorts Breaking News 2: Important Development in Technology",
       "InShorts Breaking News 3: Important Development in Technology",
       "InShorts Breaking News 4: Important Development in Technology",
       "InShorts Breaking News 5: Important Development in Technology",
       "InShorts Breaking News 6: Important Development in Technology",
       "InShorts Breaking News 7: Important Development in Technology",
       "InShorts Breaking News 8: Important Development in Technology",
       "InShorts Breaking News 9: Important Development in Technology",
       "InShorts Breaking News 10: Important Development in Technology"] := rfl
  rw [htitles]
  decide

/-- Witness for C8: the first record's title contains the index 1. -/
theorem scrape_inshorts_mock_shape_witness :
    (toString (0 + 1)).toList <:+:
      (((scrape_inshorts (fun _ => pub0)).map Article.title).getD 0 "").toList :=
  (scrape_inshorts_mock_shape (fun _ => pub0)).2.2 0 (by decide)

/-- C9: two scrape passes over the same static input agree on titles, urls
and sources for both registered sources; only the environment-supplied
`published_at` timestamps can differ between the runs. -/
theorem scrape_twice_same_titles_urls (p1 p2 q1 q2 : Nat → PyDateTime) :
    (scrape_inshorts p1).map (fun a => (a.title, a.url, a.source)) =
      (scrape_inshorts p2).map (fun a => (a.title, a.url, a.source)) ∧
    (scrape_ht q1).map (fun a => (a.title, a.url, a.source)) =
      (scrape_ht q2).map (fun a => (a.title, a.url, a.source)) :=
  ⟨rfl, rfl⟩

/-- C10: on a string matched by one of the three formats, `_parse_date`
returns a naive datetime (no timezone information) at time-of-day 00:00:00,
whereas on the no-match fallback it returns the timezone-aware current time
(`timezone.now()` with `USE_TZ`, modelled by the hypothesis on `now`) — the
two branches differ in timezone-awareness. -/
theorem parse_date_tz_branches (now : PyDateTime) (s : String)
    (haware : now.tzAware = true) :
    ((strptimeYMD s).isSome = true ∨ (strptimeDMY s).isSome = true ∨
       (strptimeMDY s).isSome = true →
       (parse_date now s).hour = 0 ∧ (parse_date now s).minute = 0 ∧
       (parse_date now s).second = 0 ∧ (parse_date now s).tzAware = false) ∧
    (strptimeYMD s = none → strptimeDMY s = none → strptimeMDY s = none →
       parse_date now s = now ∧ (parse_date now s).tzAware = true) := by
  constructor
  · intro hmatch
    cases hY : strptimeYMD s with
    | some dt =>
      have hpd : parse_date now s = dt := by simp [parse_date, hY]
      rw [hpd]
      exact strptimeYMD_midnight s dt hY
    | none =>
      cases hD : strptimeDMY s with
      | some dt =>
        have hpd : parse_date now s = dt := by simp [parse_date, hY, hD]
        rw [hpd]
        exact strptimeDMY_midnight s dt hD
      | none =>
        cases hM : strptimeMDY s with
        | some dt =>
          have hpd : parse_date now s = dt := by simp [parse_date, hY, hD, hM]
          rw [hpd]
          exact strptimeMDY_midnight s dt hM
        | none =>
          rw [hY, hD, hM] at hmatch
          simp at hmatch
  · intro h1 h2 h3
    have hpd : parse_date now s = now := by simp [parse_date, h1, h2, h3]
    exact ⟨hpd, by rw [hpd]; exact haware⟩

/-- Witness for C10: on an unparseable string, with an aware current time,
the fallback result is the aware current time. -/
theorem parse_date_tz_branches_witness :
    parse_date pub0 "not-a-date" = pub0 ∧ (parse_date pub0 "not-a-date").tzAware = true :=
  (parse_date_tz_branches pub0 "not-a-date" rfl).2 rfl rfl rfl
